import Mathlib

/-!
Verification of the retail forecast and recommendation core.

Shallow embedding, in Lean 4, of the core components of the
`retail-forecast-and-recommend-system` repository:

* `backend/app/core/feature_engine.py` — `FeatureEngine` (joins, aggregation,
  lag features) and `RecommendationFeatureEngine` (user-item interaction
  matrix);
* `backend/app/models/forecasting.py` — `BaselineForecaster`,
  `LightGBMForecaster` (chronological split), `ForecastingPipeline`
  (`forecast`, `batch_forecast`);
* `backend/app/models/recommendation.py` — `CollaborativeFilter`,
  `ContentBasedRecommender`, `HybridRecommender`;
* `backend/app/core/training_events.py` — the training orchestrator
  (`run_forecast_training` / `run_recommend_training`, `_init_training_record`,
  `_update_progress`, `_finalize`).

Conventions used throughout the embedding:

* Pandas DataFrames become typed lists of rows; identifiers become `Nat`
  (or `String` where Python truthiness of the id matters); numeric values
  become `ℚ` (the claims under verification are structural and do not depend
  on binary floating point rounding); nullable cells become `Option`.
* Python `dict`s (insertion ordered) become association lists.
* Pandas stable ordering (`sorted`, `Series.nlargest` with the default
  `keep=first`, `pivot_table`/`groupby` sorted keys) is modeled with stable
  insertion sorts defined below.
* Real-valued cosine-similarity matrices produced by
  `sklearn.metrics.pairwise.cosine_similarity` are carried as abstract
  rational-valued functions inside the fitted-model states: every verified
  property is independent of the numeric entries of those matrices, and the
  theorems quantify over them (so they hold in particular for the cosine
  values).
* Fallible Python code (functions that may `raise`) returns `Except String`.
-/

namespace RetailSpec

/-! ## Common list utilities (Python/pandas ordering semantics) -/

/-- Insert `x` into `l` in front of the first element whose score is `≤` the
score of `x`.  Used to model Python's stable `sorted(..., reverse=True)` and
pandas `nlargest(..., keep=first)`: equal scores keep their original order. -/
def insertDesc {α : Type} (x : α × ℚ) : List (α × ℚ) → List (α × ℚ)
  | [] => [x]
  | y :: ys => if y.2 ≤ x.2 then x :: y :: ys else y :: insertDesc x ys

/-- Stable sort by non-increasing score (second component). -/
def sortDesc {α : Type} : List (α × ℚ) → List (α × ℚ)
  | [] => []
  | x :: xs => insertDesc x (sortDesc xs)

theorem length_insertDesc {α : Type} (x : α × ℚ) (l : List (α × ℚ)) :
    (insertDesc x l).length = l.length + 1 := by
  induction l with
  | nil => rfl
  | cons y ys ih =>
    simp only [insertDesc]
    split
    · simp
    · simp [ih]

theorem length_sortDesc {α : Type} (l : List (α × ℚ)) :
    (sortDesc l).length = l.length := by
  induction l with
  | nil => rfl
  | cons x xs ih => simp [sortDesc, length_insertDesc, ih]

theorem mem_insertDesc {α : Type} {x a : α × ℚ} {l : List (α × ℚ)} :
    a ∈ insertDesc x l ↔ a = x ∨ a ∈ l := by
  induction l with
  | nil => simp [insertDesc]
  | cons y ys ih =>
    simp only [insertDesc]
    split
    · simp [List.mem_cons]
    · simp only [List.mem_cons, ih]
      tauto

theorem mem_sortDesc {α : Type} {a : α × ℚ} {l : List (α × ℚ)} :
    a ∈ sortDesc l ↔ a ∈ l := by
  induction l with
  | nil => simp [sortDesc]
  | cons x xs ih =>
    simp only [sortDesc, mem_insertDesc, List.mem_cons, ih]

/-- Scores are non-increasing along the output of `sortDesc`. -/
def ScoresDesc {α : Type} (l : List (α × ℚ)) : Prop :=
  l.Pairwise (fun a b => b.2 ≤ a.2)

theorem scoresDesc_insertDesc {α : Type} {x : α × ℚ} {l : List (α × ℚ)}
    (h : ScoresDesc l) : ScoresDesc (insertDesc x l) := by
  induction l with
  | nil => simp [insertDesc, ScoresDesc]
  | cons y ys ih =>
    simp only [insertDesc]
    rcases h with - | ⟨hy, hys⟩
    split
    · rename_i hle
      refine List.Pairwise.cons ?_ (List.Pairwise.cons hy hys)
      intro b hb
      rcases List.mem_cons.mp hb with hb | hb
      · exact hb ▸ hle
      · exact le_trans (hy b hb) hle
    · rename_i hgt
      push_neg at hgt
      refine List.Pairwise.cons ?_ (ih hys)
      intro b hb
      rcases mem_insertDesc.mp hb with hb | hb
      · exact hb ▸ le_of_lt hgt
      · exact hy b hb

theorem scoresDesc_sortDesc {α : Type} (l : List (α × ℚ)) :
    ScoresDesc (sortDesc l) := by
  induction l with
  | nil => exact List.Pairwise.nil
  | cons x xs ih => exact scoresDesc_insertDesc ih

theorem scoresDesc_take {α : Type} {l : List (α × ℚ)} (h : ScoresDesc l)
    (n : Nat) : ScoresDesc (l.take n) :=
  h.sublist (List.take_sublist n l)

/-- First-occurrence de-duplication, the semantics of pandas
`Series.unique()` (used for the purchased-product history) and of repeated
`dict` key insertion. -/
def dedupFirst {α : Type} [DecidableEq α] : List α → List α
  | [] => []
  | x :: xs => x :: (dedupFirst xs).filter (fun y => y ≠ x)

theorem mem_dedupFirst {α : Type} [DecidableEq α] {a : α} {l : List α} :
    a ∈ dedupFirst l ↔ a ∈ l := by
  induction l with
  | nil => simp [dedupFirst]
  | cons x xs ih =>
    by_cases hax : a = x
    · simp [dedupFirst, hax]
    · simp [dedupFirst, hax, List.mem_filter, ih]

theorem nodup_dedupFirst {α : Type} [DecidableEq α] (l : List α) :
    (dedupFirst l).Nodup := by
  induction l with
  | nil => exact List.nodup_nil
  | cons x xs ih =>
    refine List.Nodup.cons ?_ (ih.filter _)
    intro hx
    have h2 := (List.mem_filter.mp hx).2
    simp at h2

/-! ## Recommendation models (`backend/app/models/recommendation.py`)

`CollaborativeFilter.fit` pivots the interaction table into a user×item
matrix (`pivot_table`, `fill_value=0`), records the sorted unique
`user_ids`/`item_ids`, and computes the user-user cosine similarity matrix.
The post-fit state is embedded as `CFFitted`; `val`/`sim` are indexed by
*positions* into `userIds`/`itemIds` (mirroring the positional `iloc` /
numpy indexing of `recommend`).  The real-valued matrix entries are carried
abstractly: no verified claim depends on their numeric values. -/

structure CFFitted where
  userIds : List Nat
  itemIds : List Nat
  val : Nat → Nat → ℚ
  sim : Nat → Nat → ℚ

/-- Embeds `np.argsort(v)[::-1]` restricted to the first `n` positions: positions
sorted by non-increasing value.  (numpy's default quicksort leaves the order
of equal values implementation-defined; the verified claims do not depend on
the tie order, which is modeled here by a stable sort.) -/
def argsortDesc (v : Nat → ℚ) (n : Nat) : List Nat :=
  (sortDesc ((List.range n).map (fun i => (i, v i)))).map Prod.fst

/-- Embeds `CollaborativeFilter._get_popular_items`: column sums of the user-item
matrix (`sum(axis=0)`), then `nlargest(top_k)` (stable, keep=first). -/
def colSum (m : CFFitted) (j : Nat) : ℚ :=
  ((List.range m.userIds.length).map (fun u => m.val u j)).sum

def getPopularItems (m : CFFitted) (topK : Nat) : List (Nat × ℚ) :=
  (sortDesc ((List.range m.itemIds.length).map
    (fun j => (m.itemIds.getD j 0, colSum m j)))).take topK

/-- Embeds `CollaborativeFilter.recommend`.  `none` models an unfitted model
(`user_item_matrix is None` → raise); an unknown user takes the popularity
path; a known user accumulates neighbour-weighted ratings over the top
`min(21, n) - 1` similar users (slice `[1:min(21, len)]` of the descending
argsort), drops already-purchased items when `exclude_purchased`, and
returns the stable top-`top_k` (`nlargest`). -/
def cfRecommend (fitted : Option CFFitted) (userId : Nat) (topK : Nat)
    (excludePurchased : Bool := true) : Except String (List (Nat × ℚ)) :=
  match fitted with
  | none => .error "モデルが学習されていません"
  | some m =>
    if userId ∈ m.userIds then
      let userIdx := m.userIds.indexOf userId
      let n := m.userIds.length
      let similarUsersIdx := ((argsortDesc (fun u => m.sim userIdx u) n).drop 1).take
        (min 21 n - 1)
      let weighted : Nat → ℚ := fun j =>
        (similarUsersIdx.map (fun u => m.val u j * m.sim userIdx u)).sum
      let allPos := List.range m.itemIds.length
      let remaining := if excludePurchased
        then allPos.filter (fun j => decide (m.val userIdx j ≤ 0))
        else allPos
      .ok ((sortDesc (remaining.map (fun j => (m.itemIds.getD j 0, weighted j)))).take topK)
    else
      .ok (getPopularItems m topK)

/-- Post-fit state of `ContentBasedRecommender` when a similarity matrix was
computed; `sim` is positional over `productIds`. -/
structure ContentFitted where
  productIds : List Nat
  sim : Nat → Nat → ℚ

/-- Embeds `ContentBasedRecommender.fit`: the similarity matrix and `product_ids`
are assigned **only when the product table has at least one category
column**; otherwise `fit` returns normally but leaves
`similarity_matrix = None`.  The cosine similarity of the one-hot encoded
category columns (plus the normalized price feature) is abstracted as the
rational-valued `sim` argument; no verified claim depends on its entries. -/
def contentFit (categoryCols : List String) (productIds : List Nat)
    (sim : Nat → Nat → ℚ) : Option ContentFitted :=
  if categoryCols.isEmpty then none else some ⟨productIds, sim⟩

/-- Embeds `ContentBasedRecommender.recommend`: raises when no similarity matrix
exists, returns `[]` for an unknown product, otherwise the slice
`[1:top_k+1]` of the descending argsort of the product's similarity row. -/
def contentRecommend (fitted : Option ContentFitted) (productId : Nat)
    (topK : Nat) : Except String (List (Nat × ℚ)) :=
  match fitted with
  | none => .error "モデルが学習されていません"
  | some m =>
    if productId ∈ m.productIds then
      let idx := m.productIds.indexOf productId
      let n := m.productIds.length
      let similarIdx := ((argsortDesc (fun j => m.sim idx j) n).drop 1).take topK
      .ok (similarIdx.map (fun j => (m.productIds.getD j 0, m.sim idx j)))
    else
      .ok []

/-- One row of the interaction table consumed by the hybrid recommender. -/
structure InteractionRow where
  customerId : Nat
  productId : Nat
  quantity : ℚ
  purchaseCount : ℚ
deriving DecidableEq

/-- Post-`fit` state of `HybridRecommender`: `fit` stores the interaction
table, fits the two sub-models (each failure caught and logged, leaving the
corresponding fitted state absent), and computes the popularity list
(top 50 product ids by summed purchase score).  Product metadata
(`product_df`) only decorates the returned items with name/category/price
and is projected away: the verified claims concern item identity, score,
count and order. -/
structure HybridModel where
  cfFitted : Option CFFitted
  contentFitted : Option ContentFitted
  popularItems : List Nat
  interaction : List InteractionRow
  cfWeight : ℚ
  contentWeight : ℚ

/-- Embeds `recommendations[pid] = recommendations.get(pid, 0) + delta` on an
insertion-ordered Python dict modeled as an association list. -/
def addScore (acc : List (Nat × ℚ)) (pid : Nat) (delta : ℚ) : List (Nat × ℚ) :=
  match acc with
  | [] => [(pid, delta)]
  | (p, s) :: rest =>
    if p = pid then (p, s + delta) :: rest else (p, s) :: addScore rest pid delta

/-- Embeds `pid in recommendations` (dict key membership). -/
def keyMem (acc : List (Nat × ℚ)) (pid : Nat) : Bool :=
  acc.any (fun e => e.1 == pid)

/-- Accumulate a recommendation list into the dict at weight `w`. -/
def accumulate (acc : List (Nat × ℚ)) (w : ℚ) (recs : List (Nat × ℚ)) :
    List (Nat × ℚ) :=
  recs.foldl (fun a e => addScore a e.1 (e.2 * w)) acc

/-- Collaborative step of `HybridRecommender.recommend`: top `2·top_k` CF
scores weighted by `cf_weight`; a CF failure is caught and contributes
nothing. -/
def hybridCfStep (m : HybridModel) (customerId topK : Nat) : List (Nat × ℚ) :=
  match cfRecommend m.cfFitted customerId (topK * 2) with
  | .ok recs => accumulate [] m.cfWeight recs
  | .error _ => []

/-- Content step: for each of the up-to-5 first distinct products the
customer purchased (`unique()[:5]`), accumulate content-similar items at
`content_weight`; per-product failures are caught. -/
def hybridContentStep (m : HybridModel) (customerId topK : Nat)
    (acc : List (Nat × ℚ)) : List (Nat × ℚ) :=
  let userHistory := m.interaction.filter (fun r => decide (r.customerId = customerId))
  if userHistory.isEmpty then acc
  else
    let purchasedProducts := (dedupFirst (userHistory.map (fun r => r.productId))).take 5
    purchasedProducts.foldl (fun a p =>
      match contentRecommend m.contentFitted p topK with
      | .ok recs => accumulate a m.contentWeight recs
      | .error _ => a) acc

/-- The candidate dict accumulated from the collaborative and content
sources, before popularity padding. -/
def hybridPrePad (m : HybridModel) (customerId topK : Nat) : List (Nat × ℚ) :=
  hybridContentStep m customerId topK (hybridCfStep m customerId topK)

/-- One padding step: `if product_id not in recommendations:
recommendations[product_id] = 0.5`. -/
def padStep (a : List (Nat × ℚ)) (p : Nat) : List (Nat × ℚ) :=
  if keyMem a p then a else a ++ [(p, 1/2)]

/-- Padding: if fewer than `top_k` candidates accumulated, each of the
first `top_k` popularity items not already present is inserted at the fixed
score `0.5`. -/
def hybridCandidates (m : HybridModel) (customerId topK : Nat) : List (Nat × ℚ) :=
  let pre := hybridPrePad m customerId topK
  if pre.length < topK then (m.popularItems.take topK).foldl padStep pre
  else pre

/-- Embeds `HybridRecommender.recommend`: stable sort of the candidate dict by
non-increasing score (`sorted(..., reverse=True)`), truncated to `top_k`.
The product-metadata enrichment of the returned dicts is projected away. -/
def hybridRecommend (m : HybridModel) (customerId : Nat) (topK : Nat) :
    List (Nat × ℚ) :=
  (sortDesc (hybridCandidates m customerId topK)).take topK

/-! ### Lemmas about the padding fold -/

theorem keyMem_append (a b : List (Nat × ℚ)) (q : Nat) :
    keyMem (a ++ b) q = (keyMem a q || keyMem b q) := by
  simp [keyMem, List.any_append]

theorem mem_foldl_padStep_of_mem {a : Nat × ℚ} :
    ∀ (ps : List Nat) (acc : List (Nat × ℚ)), a ∈ acc → a ∈ ps.foldl padStep acc := by
  intro ps
  induction ps with
  | nil => intro acc h; simpa using h
  | cons p ps ih =>
    intro acc h
    rw [List.foldl_cons]
    refine ih _ ?_
    unfold padStep
    split
    · exact h
    · exact List.mem_append_left _ h

theorem pad_mem {q : Nat} :
    ∀ (ps : List Nat) (acc : List (Nat × ℚ)), keyMem acc q = false → q ∈ ps →
      (q, (1 : ℚ)/2) ∈ ps.foldl padStep acc := by
  intro ps
  induction ps with
  | nil => intro acc _ h; simp at h
  | cons p ps ih =>
    intro acc hq hqm
    rw [List.foldl_cons]
    by_cases hqp : q = p
    · subst hqp
      rw [padStep, if_neg (by simp [hq])]
      exact mem_foldl_padStep_of_mem ps _ (List.mem_append_right _ (by simp))
    · have hqps : q ∈ ps := by
        rcases List.mem_cons.mp hqm with h | h
        · exact absurd h hqp
        · exact h
      refine ih _ ?_ hqps
      unfold padStep
      split
      · exact hq
      · rw [keyMem_append, hq]
        simp [keyMem, hqp, Ne.symm hqp]

theorem foldl_padStep_eq_append :
    ∀ (ps : List Nat) (acc : List (Nat × ℚ)), ps.Nodup →
      ps.foldl padStep acc =
        acc ++ (ps.filter (fun p => !keyMem acc p)).map (fun p => (p, (1 : ℚ)/2)) := by
  intro ps
  induction ps with
  | nil => intro acc _; simp
  | cons p ps ih =>
    intro acc hnd
    rcases List.nodup_cons.mp hnd with ⟨hp, hnd'⟩
    rw [List.foldl_cons]
    by_cases hk : keyMem acc p
    · rw [padStep, if_pos hk, List.filter_cons_of_neg (by simp [hk]), ih _ hnd']
    · rw [padStep, if_neg hk, List.filter_cons_of_pos (by simp [hk]), ih _ hnd']
      have hfc : ps.filter (fun q => !keyMem (acc ++ [(p, (1 : ℚ)/2)]) q)
          = ps.filter (fun q => !keyMem acc q) := by
        refine List.filter_congr ?_
        intro q hq
        have hqp : ¬ (p = q) := fun h => hp (h ▸ hq)
        rw [keyMem_append]
        simp [keyMem, hqp]
      rw [hfc]
      simp

/-! ## Claims C6, C9, C10 -/

/-- C6: for every fitted `CollaborativeFilter` and every `user_id` that did
not occur in the training interactions, `recommend(user_id, top_k)` returns
the global popularity list — the top items by summed interaction score
(column sums of the user-item matrix, stable `nlargest`) — of length at
most `top_k`, and never raises (it returns normally). -/
theorem C6_cf_unknown_user_returns_popularity (m : CFFitted) (userId topK : Nat)
    (h : userId ∉ m.userIds) :
    cfRecommend (some m) userId topK = .ok (getPopularItems m topK) ∧
    getPopularItems m topK =
      (sortDesc ((List.range m.itemIds.length).map
        (fun j => (m.itemIds.getD j 0, colSum m j)))).take topK ∧
    (getPopularItems m topK).length ≤ topK := by
  refine ⟨by simp [cfRecommend, h], rfl, ?_⟩
  simp only [getPopularItems, List.length_take]
  exact min_le_left topK _

/-- Closed witness for C6 at a concrete fitted model and unseen user. -/
theorem C6_witness :
    cfRecommend (some ⟨[1, 2], [10, 11], fun u j => (u : ℚ) + j, fun _ _ => 0⟩)
        99 1 =
      .ok (getPopularItems ⟨[1, 2], [10, 11], fun u j => (u : ℚ) + j, fun _ _ => 0⟩ 1) ∧
    (getPopularItems ⟨[1, 2], [10, 11], fun u j => (u : ℚ) + j, fun _ _ => 0⟩ 1).length ≤ 1 :=
  ⟨(C6_cf_unknown_user_returns_popularity _ 99 1 (by decide)).1,
   (C6_cf_unknown_user_returns_popularity _ 99 1 (by decide)).2.2⟩

/-- C9: for every fitted `CollaborativeFilter` and user known to it,
`recommend` with the default `exclude_purchased=True` never returns an item
whose interaction score with that user is positive: those items are dropped
from the weighted ratings before the top-k selection.  (`item_ids` — pandas
pivot columns — are unique in any fitted model.) -/
theorem C9_cf_excludes_purchased (m : CFFitted) (userId topK : Nat)
    (hmem : userId ∈ m.userIds) (hnd : m.itemIds.Nodup)
    (j : Nat) (hj : j < m.itemIds.length)
    (hpos : 0 < m.val (m.userIds.indexOf userId) j)
    (l : List (Nat × ℚ)) (hl : cfRecommend (some m) userId topK = .ok l) :
    ∀ sc : ℚ, (m.itemIds.getD j 0, sc) ∉ l := by
  intro sc hin
  simp only [cfRecommend, if_pos hmem, Except.ok.injEq] at hl
  subst hl
  have hmem2 := mem_sortDesc.mp ((List.take_sublist _ _).mem hin)
  rcases List.mem_map.mp hmem2 with ⟨j', hj', heq⟩
  have hj'f := List.mem_filter.mp hj'
  have hj'lt : j' < m.itemIds.length := List.mem_range.mp hj'f.1
  have hle : m.val (m.userIds.indexOf userId) j' ≤ 0 := of_decide_eq_true hj'f.2
  have hid : m.itemIds.getD j' 0 = m.itemIds.getD j 0 := congrArg Prod.fst heq
  rw [List.getD_eq_getElem _ _ hj'lt, List.getD_eq_getElem _ _ hj] at hid
  have : j' = j := (List.Nodup.getElem_inj_iff hnd).mp hid
  subst this
  exact absurd hpos (not_lt.mpr hle)

/-- Closed witness for C9: user 1 (position 0) purchased item 10
(position 0); the returned list contains only item 11. -/
theorem C9_witness :
    ((10 : Nat), (0 : ℚ)) ∉ [((11 : Nat), (0 : ℚ))] :=
  C9_cf_excludes_purchased
    ⟨[1, 2], [10, 11], fun u j => if u = 0 ∧ j = 0 then 1 else 0, fun _ _ => 0⟩
    1 10 (by decide) (by decide) 0 (by decide) (by decide) _
    (by simp +decide [cfRecommend, argsortDesc, sortDesc, insertDesc]) 0

/-- C2: for every fitted `HybridRecommender`, every customer and every
`top_k`, `recommend` returns exactly `min(top_k, number of available
candidates)` items sorted by non-increasing score; when fewer than `top_k`
candidates accumulate from the collaborative and content sources, every
missing item of the first-`top_k` popularity slice is padded in at the
fixed score `0.5`; and whenever the (duplicate-free) popularity list holds
at least `top_k` items — in particular under cold start — the result has
exactly `top_k` items. -/
theorem C2_hybrid_recommend_result (m : HybridModel) (customerId topK : Nat) :
    (hybridRecommend m customerId topK).length
        = min topK (hybridCandidates m customerId topK).length ∧
    ScoresDesc (hybridRecommend m customerId topK) ∧
    ((hybridPrePad m customerId topK).length < topK →
      ∀ p ∈ m.popularItems.take topK,
        keyMem (hybridPrePad m customerId topK) p = false →
        (p, (1 : ℚ)/2) ∈ hybridCandidates m customerId topK) ∧
    (m.popularItems.Nodup → topK ≤ m.popularItems.length →
      (hybridRecommend m customerId topK).length = topK) := by
  have hlen : (hybridRecommend m customerId topK).length
      = min topK (hybridCandidates m customerId topK).length := by
    simp [hybridRecommend, List.length_take, length_sortDesc]
  refine ⟨hlen, scoresDesc_take (scoresDesc_sortDesc _) _, ?_, ?_⟩
  · intro hlt p hp hk
    simp only [hybridCandidates]
    rw [if_pos hlt]
    exact pad_mem _ _ hk hp
  · intro hnd hle
    have hcand : topK ≤ (hybridCandidates m customerId topK).length := by
      simp only [hybridCandidates]
      by_cases hlt : (hybridPrePad m customerId topK).length < topK
      · rw [if_pos hlt]
        set pre := hybridPrePad m customerId topK with hpre
        set T := m.popularItems.take topK with hT
        have hTnd : T.Nodup := (List.take_sublist _ _).nodup hnd
        have hTlen : T.length = topK := by
          rw [hT, List.length_take]
          exact min_eq_left hle
        rw [foldl_padStep_eq_append T pre hTnd, List.length_append, List.length_map]
        have hsub : (T.filter (fun p => keyMem pre p)) ⊆ pre.map Prod.fst := by
          intro q hq
          rcases List.any_eq_true.mp ((List.mem_filter.mp hq).2) with ⟨e, he, heq⟩
          exact List.mem_map.mpr ⟨e, he, by simpa using heq⟩
        have hS : (T.filter (fun p => keyMem pre p)).length ≤ pre.length := by
          have h1 := (List.subperm_of_subset (hTnd.filter _) hsub).length_le
          simpa using h1
        have hsplit : T.length = (T.filter (fun p => keyMem pre p)).length
            + (T.filter (fun p => !keyMem pre p)).length := by
          have h0 := List.length_eq_countP_add_countP (fun p => keyMem pre p) (l := T)
          simpa [List.countP_eq_length_filter] using h0
        omega
      · rw [if_neg hlt]
        omega
    rw [hlen]
    exact min_eq_left hcand

/-- Closed witness for C2 at a concrete cold-start model (no fitted
sub-models, empty history): the popularity padding fills the result to
exactly `top_k` items at score `0.5`. -/
theorem C2_witness :
    (hybridRecommend ⟨none, none, [5, 6], [], 1, 1⟩ 0 2).length
        = min 2 (hybridCandidates ⟨none, none, [5, 6], [], 1, 1⟩ 0 2).length ∧
    ((5 : Nat), (1 : ℚ)/2) ∈ hybridCandidates ⟨none, none, [5, 6], [], 1, 1⟩ 0 2 ∧
    (hybridRecommend ⟨none, none, [5, 6], [], 1, 1⟩ 0 2).length = 2 :=
  ⟨(C2_hybrid_recommend_result ⟨none, none, [5, 6], [], 1, 1⟩ 0 2).1,
   (C2_hybrid_recommend_result ⟨none, none, [5, 6], [], 1, 1⟩ 0 2).2.2.1
     (by decide) 5 (by decide) (by decide),
   (C2_hybrid_recommend_result ⟨none, none, [5, 6], [], 1, 1⟩ 0 2).2.2.2
     (by decide) (by decide)⟩

/-- C10 counterexample: `ContentBasedRecommender.fit` on a product table
with *no* category column returns normally but computes no similarity
matrix; `recommend` on this fitted model then raises
("モデルが学習されていません") for every product id — including one not among
the fitted product ids — instead of returning the empty list. -/
theorem C10_counterexample :
    contentFit [] [1, 2] (fun _ _ => 0) = none ∧
    contentRecommend (contentFit [] [1, 2] (fun _ _ => 0)) 5 3 =
      .error "モデルが学習されていません" :=
  ⟨rfl, rfl⟩

/-- C10 (amended): for every `ContentBasedRecommender` whose `fit` computed
a similarity matrix (i.e. the product table had at least one category
column), `recommend(product_id, top_k)` with a `product_id` not among the
fitted product ids returns the empty list and never raises. -/
theorem C10_unknown_product_empty (c : ContentFitted) (productId topK : Nat)
    (h : productId ∉ c.productIds) :
    contentRecommend (some c) productId topK = .ok [] := by
  simp [contentRecommend, h]

/-- Closed witness for C10's amended theorem. -/
theorem C10_witness :
    contentRecommend (some ⟨[1, 2], fun _ _ => 0⟩) 5 3 = .ok [] :=
  C10_unknown_product_empty ⟨[1, 2], fun _ _ => 0⟩ 5 3 (by decide)

/-! ## Feature engine (`backend/app/core/feature_engine.py`)

Tables are typed lists of rows over the standardized column layout of the
data model (`product_id`, `store_id`, `customer_id`, `transaction_id`,
parsed dates as `Int` day numbers, numeric cells as `ℚ`, nullable cells as
`Option`). -/

/-- One `transaction_items` row. -/
structure TransItemRow where
  transactionId : Nat
  productId : Nat
  quantity : ℚ
  lineTotal : ℚ
deriving DecidableEq

/-- One `transaction` row; `customer_id` may be null. -/
structure TransactionRow where
  transactionId : Nat
  customerId : Option Nat
  storeId : Nat
  date : Int
deriving DecidableEq

/-- Result of the left join of a `transaction_items` row against the
`transaction` table on `transaction_id` (the transaction table is keyed by
`transaction_id`, so the pandas merge matches at most one row); an unmatched
row keeps the item columns and gets nulls for the transaction columns. -/
structure JoinedRow where
  productId : Nat
  storeId : Option Nat
  date : Option Int
  quantity : ℚ
  lineTotal : ℚ
deriving DecidableEq

def joinItemsTrans (items : List TransItemRow) (trans : List TransactionRow) :
    List JoinedRow :=
  items.map (fun r =>
    match trans.find? (fun t => t.transactionId == r.transactionId) with
    | some t => ⟨r.productId, some t.storeId, some t.date, r.quantity, r.lineTotal⟩
    | none => ⟨r.productId, none, none, r.quantity, r.lineTotal⟩)

/-- One row of the aggregated (product × store × date) sales table.  The
further derived numeric columns (calendar features, rolling statistics,
price statistics, contextual flags) are projected away: no verified claim
references them. -/
structure AggRow where
  productId : Nat
  storeId : Nat
  date : Int
  salesQuantity : ℚ
  salesAmount : ℚ
deriving DecidableEq

/-- Lexicographic (product_id, store_id, date) key order used by
`sort_values` and by the sorted `groupby` keys. -/
def aggKeyLe (a b : AggRow) : Bool :=
  decide (a.productId < b.productId ∨ (a.productId = b.productId ∧
    (a.storeId < b.storeId ∨ (a.storeId = b.storeId ∧ a.date ≤ b.date))))

def insertAgg (x : AggRow) : List AggRow → List AggRow
  | [] => [x]
  | y :: ys => if aggKeyLe x y then x :: y :: ys else y :: insertAgg x ys

/-- Stable ascending sort by (product_id, store_id, date). -/
def sortAgg : List AggRow → List AggRow
  | [] => []
  | x :: xs => insertAgg x (sortAgg xs)

/-- Group key of `_aggregate_sales`; rows whose store or date is null carry
no key and are dropped by the pandas `groupby`. -/
def aggKey (r : JoinedRow) : Option (Nat × Nat × Int) :=
  match r.storeId, r.date with
  | some s, some d => some (r.productId, s, d)
  | _, _ => none

/-- Embeds `FeatureEngine._aggregate_sales`: one row per (product_id, store_id,
date) key with summed quantity (`sales_quantity`) and summed line total
(`sales_amount`); keys are sorted (`groupby` sorted output). -/
def aggregateSales (df : List JoinedRow) : List AggRow :=
  sortAgg ((dedupFirst (df.filterMap aggKey)).map (fun q =>
    let grp := df.filter (fun r => decide (aggKey r = some q))
    ⟨q.1, q.2.1, q.2.2, (grp.map (fun r => r.quantity)).sum,
      (grp.map (fun r => r.lineTotal)).sum⟩))

/-- An `AggRow` together with the four lag columns added by
`_add_lag_features`. -/
structure LagRow extends AggRow where
  lag1 : Option ℚ
  lag7 : Option ℚ
  lag14 : Option ℚ
  lag28 : Option ℚ
deriving DecidableEq

def rowKey (r : AggRow) : Nat × Nat := (r.productId, r.storeId)

/-- Attach the lag columns to a row given the reversed list of
`sales_quantity` values seen so far in the row's group: `shift(lag)` within
the group reads the `lag`-th previous row. -/
def mkLagRow (r : AggRow) (h : List ℚ) : LagRow :=
  ⟨r, h.get? 0, h.get? 6, h.get? 13, h.get? 27⟩

/-- Operational model of `df.groupby([product_id, store_id])[sales_quantity]
.shift(lag)` for `lag ∈ {1, 7, 14, 28}`: walk the rows in order, keeping
per-group the reversed list of `sales_quantity` values already seen. -/
def addLagsAux : (Nat × Nat → List ℚ) → List AggRow → List LagRow
  | _, [] => []
  | hist, r :: rs =>
    mkLagRow r (hist (rowKey r)) ::
      addLagsAux (Function.update hist (rowKey r) (r.salesQuantity :: hist (rowKey r))) rs

/-- Embeds `FeatureEngine._add_lag_features`: sort by (product_id, store_id, date),
then shift `sales_quantity` by row position within each (product_id,
store_id) group. -/
def addLagFeatures (df : List AggRow) : List LagRow :=
  addLagsAux (fun _ => []) (sortAgg df)

/-- The per-group view of the lag assignment: the `i`-th row of a group gets
`lag_1` from the `(i-1)`-th row of the same group (and so on), starting from
the inherited history `h`. -/
def lagView (h : List ℚ) : List AggRow → List LagRow
  | [] => []
  | r :: rs => mkLagRow r h :: lagView (r.salesQuantity :: h) rs

theorem addLagsAux_filter (k : Nat × Nat) :
    ∀ (l : List AggRow) (hist : Nat × Nat → List ℚ),
      (addLagsAux hist l).filter (fun r => decide (rowKey r.toAggRow = k))
        = lagView (hist k) (l.filter (fun r => decide (rowKey r = k))) := by
  intro l
  induction l with
  | nil => intro hist; rfl
  | cons r rs ih =>
    intro hist
    by_cases hk : rowKey r = k
    · rw [addLagsAux, List.filter_cons_of_pos (by simpa [mkLagRow] using hk),
        List.filter_cons_of_pos (by simpa using hk), ih, hk,
        Function.update_same, lagView, ← hk]
    · rw [addLagsAux, List.filter_cons_of_neg (by simpa [mkLagRow] using hk),
        List.filter_cons_of_neg (by simpa using hk), ih,
        Function.update_noteq (Ne.symm (by simpa using hk))]

/-! ## Feature-engine table state (frame behaviour of
`generate_forecast_features`) -/

structure ProductRow where
  productId : Nat
  retailPrice : ℚ
deriving DecidableEq

structure StoreRow where
  storeId : Nat
  prefecture : Nat
deriving DecidableEq

structure PromotionRow where
  startDate : Int
  endDate : Int
deriving DecidableEq

structure WeatherRow where
  date : Int
  temperature : ℚ
  precipitation : ℚ
deriving DecidableEq

/-- The `holiday` input table: a `date` column and, possibly, an
`is_holiday` column (absent on a fresh input). -/
structure HolidayTable where
  dates : List Int
  isHoliday : Option (List ℚ)
deriving DecidableEq

structure InventoryRow where
  productId : Nat
  storeId : Nat
  stockQuantity : ℚ
deriving DecidableEq

/-- Embeds `FeatureEngine.parsed_data`: the caller-owned map of cleaned tables
(required `transaction_items`/`transaction`, optional context tables). -/
structure EngineState where
  transactionItems : List TransItemRow
  transaction : List TransactionRow
  product : Option (List ProductRow)
  store : Option (List StoreRow)
  promotion : Option (List PromotionRow)
  weather : Option (List WeatherRow)
  holiday : Option HolidayTable
  inventory : Option (List InventoryRow)
deriving DecidableEq

/-- A lag-annotated row after the weather left-merge.  The aggregated frame
never has a `prefecture` column (only the (product_id, store_id, date) keys
and the aggregates survive `_aggregate_sales`), so `_add_weather_features`
merges on `['date']` alone; the merged `temperature_celsius` /
`precipitation_mm` values are carried (`humidity_percent` is projected) and
are null when the date has no weather row — or when no weather table was
given, in which case the columns are absent (modeled as all-null
columns). -/
structure WxRow extends LagRow where
  temperature : Option ℚ
  precipitation : Option ℚ
deriving DecidableEq

/-- A feature-matrix row after the holiday left-merge: `is_holiday` is 1 on
matched dates and `fillna(0)` otherwise; the column is absent (all-null
here) when no holiday table was given. -/
structure FeatRow extends WxRow where
  isHoliday : Option ℚ
deriving DecidableEq

/-- Embeds the row effect of `_add_weather_features`: a pandas left merge
on `['date']` alone — each feature row is repeated once per weather row
with the same date, and an unmatched row is kept once with nulls.  A
weather table with several rows per date (e.g. one row per
(date, prefecture)) therefore multiplies feature rows. -/
def mergeWeather (wt : Option (List WeatherRow)) (rows : List LagRow) :
    List WxRow :=
  match wt with
  | none => rows.map (fun r => ⟨r, none, none⟩)
  | some ws => rows.flatMap (fun r =>
      let ms := ws.filter (fun w => decide (w.date = r.date))
      if ms.isEmpty then [⟨r, none, none⟩]
      else ms.map (fun w => ⟨r, some w.temperature, some w.precipitation⟩))

/-- Embeds the row effect of the left merge on `date` in
`_add_holiday_features` (`is_holiday = 1` per matching holiday row,
`fillna(0)` otherwise); a repeated holiday date likewise multiplies
rows. -/
def mergeHoliday (ht : Option HolidayTable) (rows : List WxRow) :
    List FeatRow :=
  match ht with
  | none => rows.map (fun r => ⟨r, none⟩)
  | some h => rows.flatMap (fun r =>
      let ms := h.dates.filter (fun d => decide (d = r.date))
      if ms.isEmpty then [⟨r, some 0⟩]
      else ms.map (fun _ => ⟨r, some 1⟩))

/-- Embeds `FeatureEngine.generate_forecast_features`, with its effect on the
caller's `parsed_data` tables made explicit (returned as the first
component).  `transaction_items` and `transaction` are explicitly copied
before the in-place numeric re-coercion, and `product`, `store`,
`promotion` and `inventory` are only read.  However `_add_weather_features`
re-coerces `parsed_data['weather']['date']` **in place** (the identity on
the already-parsed dates modeled here), and `_add_holiday_features`
re-coerces `parsed_data['holiday']['date']` in place **and assigns
`parsed_data['holiday']['is_holiday'] = 1`**, adding a column of ones to
the caller's table.  The returned feature matrix is the aggregated table
with lag columns, then transformed by the contextual steps: the calendar
features, rolling statistics (per-row `transform`), price statistics and
inventory levels (left merges on grouped — hence unique — keys) and the
promotion flag only add columns to the freshly allocated output and are
projected away, but the weather and holiday steps are **left merges on
`date` alone** which can multiply rows, so their row effect (and merged
columns) is modeled by `mergeWeather` and `mergeHoliday` below. -/
def generateForecastFeatures (s : EngineState) : EngineState × List FeatRow :=
  let df := joinItemsTrans s.transactionItems s.transaction
  let lagged := addLagFeatures (aggregateSales df)
  let merged := mergeHoliday s.holiday (mergeWeather s.weather lagged)
  let s1 := match s.holiday with
    | none => s
    | some h => { s with holiday := some ⟨h.dates, some (List.replicate h.dates.length 1)⟩ }
  (s1, merged)

/-! ## RecommendationFeatureEngine (`generate_user_item_matrix`) -/

/-- Lexicographic order on (customer_id, product_id) keys (pandas `groupby`
returns its keys sorted). -/
def pairLe (a b : Nat × Nat) : Bool :=
  decide (a.1 < b.1 ∨ (a.1 = b.1 ∧ a.2 ≤ b.2))

def insertPair (x : Nat × Nat) : List (Nat × Nat) → List (Nat × Nat)
  | [] => [x]
  | y :: ys => if pairLe x y then x :: y :: ys else y :: insertPair x ys

def sortPairs : List (Nat × Nat) → List (Nat × Nat)
  | [] => []
  | x :: xs => insertPair x (sortPairs xs)

theorem insertPair_perm (x : Nat × Nat) (l : List (Nat × Nat)) :
    (insertPair x l).Perm (x :: l) := by
  induction l with
  | nil => exact List.Perm.refl _
  | cons y ys ih =>
    rw [insertPair]
    split
    · exact List.Perm.refl _
    · exact (ih.cons y).trans (List.Perm.swap x y ys)

theorem sortPairs_perm (l : List (Nat × Nat)) : (sortPairs l).Perm l := by
  induction l with
  | nil => exact List.Perm.refl _
  | cons x xs ih => exact (insertPair_perm x (sortPairs xs)).trans (ih.cons x)

/-- Customer of a transaction id under the left join
`items.merge(trans[[transaction_id, customer_id]], how=left)`: the matching
transaction's (possibly null) customer, or null when unmatched. -/
def lookupCustomer (trans : List TransactionRow) (txid : Nat) : Option Nat :=
  match trans.find? (fun t => t.transactionId == txid) with
  | some t => t.customerId
  | none => none

/-- The (customer_id, product_id) pairs occurring in the joined transaction
data (rows with a null customer carry no pair and are dropped by
`groupby`). -/
def joinedPairs (items : List TransItemRow) (trans : List TransactionRow) :
    List (Nat × Nat) :=
  items.filterMap (fun r =>
    (lookupCustomer trans r.transactionId).map (fun c => (c, r.productId)))

/-- The transaction-item rows of one (customer_id, product_id) group. -/
def pairGroup (items : List TransItemRow) (trans : List TransactionRow)
    (c p : Nat) : List TransItemRow :=
  items.filter (fun r =>
    decide (lookupCustomer trans r.transactionId = some c ∧ r.productId = p))

structure MatrixInfo where
  nUsers : Nat
  nItems : Nat
  nInteractions : Nat
deriving DecidableEq

/-- Embeds `RecommendationFeatureEngine.generate_user_item_matrix`: join
`transaction_items` to `transaction` on `transaction_id`, group by
(customer_id, product_id), sum `quantity` and count rows as
`purchase_count`; also return `{n_users, n_items, n_interactions}`. -/
def generateUserItemMatrix (items : List TransItemRow)
    (trans : List TransactionRow) : List InteractionRow × MatrixInfo :=
  let keys := sortPairs (dedupFirst (joinedPairs items trans))
  let rows := keys.map (fun q =>
    let grp := pairGroup items trans q.1 q.2
    ⟨q.1, q.2, (grp.map (fun r => r.quantity)).sum, (grp.length : ℚ)⟩)
  (rows, ⟨(dedupFirst (rows.map (fun r => r.customerId))).length,
    (dedupFirst (rows.map (fun r => r.productId))).length, rows.length⟩)

/-! ## Claims C4, C5, C8 -/

/-- Restricted to any group `k`, the output of `_add_lag_features` is
exactly the group's rows (in sorted order) annotated by row-position
shifts; in particular the first row of every group has null `lag_1` and the
second row's `lag_1` is the first row's `sales_quantity`. -/
theorem addLagFeatures_group_lags (df : List AggRow) (k : Nat × Nat) :
    (addLagFeatures df).filter (fun r => decide (rowKey r.toAggRow = k))
      = lagView [] ((sortAgg df).filter (fun r => decide (rowKey r = k))) ∧
    (∀ r0, ((addLagFeatures df).filter
        (fun r => decide (rowKey r.toAggRow = k))).get? 0 = some r0 →
      r0.lag1 = none) ∧
    (∀ r0 r1, ((addLagFeatures df).filter
        (fun r => decide (rowKey r.toAggRow = k))).get? 0 = some r0 →
      ((addLagFeatures df).filter
        (fun r => decide (rowKey r.toAggRow = k))).get? 1 = some r1 →
      r1.lag1 = some r0.salesQuantity) := by
  have hmain : (addLagFeatures df).filter (fun r => decide (rowKey r.toAggRow = k))
      = lagView [] ((sortAgg df).filter (fun r => decide (rowKey r = k))) :=
    addLagsAux_filter k (sortAgg df) (fun _ => [])
  refine ⟨hmain, ?_, ?_⟩
  · intro r0 h0
    rw [hmain] at h0
    match hG : (sortAgg df).filter (fun r => decide (rowKey r = k)) with
    | [] => rw [hG] at h0; simp [lagView] at h0
    | a :: tail =>
      rw [hG] at h0
      rw [lagView, List.get?_cons_zero] at h0
      cases Option.some.inj h0
      rfl
  · intro r0 r1 h0 h1
    rw [hmain] at h0 h1
    match hG : (sortAgg df).filter (fun r => decide (rowKey r = k)) with
    | [] => rw [hG] at h0; simp [lagView] at h0
    | [a] => rw [hG] at h1; simp [lagView] at h1
    | a :: b :: t =>
      rw [hG] at h0 h1
      rw [lagView, List.get?_cons_zero] at h0
      rw [lagView, List.get?_cons_succ, lagView, List.get?_cons_zero] at h1
      cases Option.some.inj h0
      cases Option.some.inj h1
      rfl

/-- A singleton-valued `flatMap` is a `map`. -/
theorem flatMap_singleton_eq_map {α β : Type} (g : α → List β) (f : α → β)
    (h : ∀ a, g a = [f a]) : ∀ l : List α, l.flatMap g = l.map f := by
  intro l
  induction l with
  | nil => rfl
  | cons x xs ih => simp [h x, ih]

/-- When the weather table has at most one row per date (or is absent), the
weather merge duplicates no rows: it is a per-row map that keeps the
underlying lag row. -/
theorem mergeWeather_map_of_unique (wt : Option (List WeatherRow))
    (rows : List LagRow)
    (hw : ∀ ws, wt = some ws → ∀ d : Int,
      (ws.filter (fun w => decide (w.date = d))).length ≤ 1) :
    ∃ f : LagRow → WxRow, (∀ r, (f r).toLagRow = r) ∧
      mergeWeather wt rows = rows.map f := by
  cases wt with
  | none => exact ⟨fun r => ⟨r, none, none⟩, fun r => rfl, rfl⟩
  | some ws =>
    refine ⟨fun r =>
      ⟨r, ((ws.filter (fun w => decide (w.date = r.date))).head?).map
            (fun w => w.temperature),
       ((ws.filter (fun w => decide (w.date = r.date))).head?).map
            (fun w => w.precipitation)⟩, fun r => rfl, ?_⟩
    simp only [mergeWeather]
    refine flatMap_singleton_eq_map _ _ ?_ rows
    intro r
    match hf : ws.filter (fun w => decide (w.date = r.date)) with
    | [] => simp [hf]
    | w :: rest =>
      have hlen := hw ws rfl r.date
      rw [hf] at hlen
      cases rest with
      | nil => simp [hf]
      | cons a b => simp at hlen

/-- When the holiday table has at most one row per date (or is absent), the
holiday merge duplicates no rows. -/
theorem mergeHoliday_map_of_unique (ht : Option HolidayTable)
    (rows : List WxRow)
    (hh : ∀ h, ht = some h → ∀ d : Int,
      (h.dates.filter (fun x => decide (x = d))).length ≤ 1) :
    ∃ g : WxRow → FeatRow, (∀ r, (g r).toWxRow = r) ∧
      mergeHoliday ht rows = rows.map g := by
  cases ht with
  | none => exact ⟨fun r => ⟨r, none⟩, fun r => rfl, rfl⟩
  | some h =>
    refine ⟨fun r =>
      ⟨r, some (if (h.dates.filter (fun x => decide (x = r.date))).isEmpty
          then 0 else 1)⟩, fun r => rfl, ?_⟩
    simp only [mergeHoliday]
    refine flatMap_singleton_eq_map _ _ ?_ rows
    intro r
    match hf : h.dates.filter (fun x => decide (x = r.date)) with
    | [] => simp [hf]
    | d :: rest =>
      have hlen := hh h rfl r.date
      rw [hf] at hlen
      cases rest with
      | nil => simp [hf]
      | cons a b => simp at hlen

/-- C4 (amended): lag features are computed by row position within each
(product_id, store_id) group of the aggregated table **at the lag stage**
(first conjunct, with no contiguity requirement on the dates); and provided
the weather and holiday tables have at most one row per date — so the later
left merges on `date` do not duplicate feature rows — the matrix produced
by `generate_forecast_features` satisfies the claim: `lag_1` of a group's
first row is null and `lag_1` of its second row equals `sales_quantity` of
its first row.  (With several weather rows on one date the merge duplicates
rows and the property fails in the produced matrix — see the
counterexample.) -/
theorem C4_lag_by_row_position (s : EngineState) (k : Nat × Nat)
    (hw : ∀ ws, s.weather = some ws → ∀ d : Int,
      (ws.filter (fun w => decide (w.date = d))).length ≤ 1)
    (hh : ∀ h, s.holiday = some h → ∀ d : Int,
      (h.dates.filter (fun x => decide (x = d))).length ≤ 1) :
    (addLagFeatures (aggregateSales (joinItemsTrans s.transactionItems
        s.transaction))).filter (fun r => decide (rowKey r.toAggRow = k))
      = lagView [] ((sortAgg (aggregateSales (joinItemsTrans s.transactionItems
          s.transaction))).filter (fun r => decide (rowKey r = k))) ∧
    (∀ r0 : FeatRow, ((generateForecastFeatures s).2.filter
        (fun r => decide (rowKey r.toAggRow = k))).get? 0 = some r0 →
      r0.lag1 = none) ∧
    (∀ r0 r1 : FeatRow, ((generateForecastFeatures s).2.filter
        (fun r => decide (rowKey r.toAggRow = k))).get? 0 = some r0 →
      ((generateForecastFeatures s).2.filter
        (fun r => decide (rowKey r.toAggRow = k))).get? 1 = some r1 →
      r1.lag1 = some r0.salesQuantity) := by
  obtain ⟨hL1, hL2, hL3⟩ := addLagFeatures_group_lags
    (aggregateSales (joinItemsTrans s.transactionItems s.transaction)) k
  obtain ⟨f, hfl, hfw⟩ := mergeWeather_map_of_unique s.weather
    (addLagFeatures (aggregateSales (joinItemsTrans s.transactionItems s.transaction))) hw
  obtain ⟨g, hgl, hgh⟩ := mergeHoliday_map_of_unique s.holiday
    (mergeWeather s.weather (addLagFeatures (aggregateSales
      (joinItemsTrans s.transactionItems s.transaction)))) hh
  set L := addLagFeatures (aggregateSales (joinItemsTrans s.transactionItems
    s.transaction)) with hLdef
  have hkey : ∀ r : LagRow, (g (f r)).toAggRow = r.toAggRow := by
    intro r
    have h1 : (g (f r)).toWxRow = f r := hgl (f r)
    have h2 : (f r).toLagRow = r := hfl r
    calc (g (f r)).toAggRow = (g (f r)).toWxRow.toLagRow.toAggRow := rfl
      _ = r.toAggRow := by rw [h1, h2]
  have hlagf : ∀ r : LagRow, (g (f r)).lag1 = r.lag1 := by
    intro r
    have h1 : (g (f r)).toWxRow = f r := hgl (f r)
    have h2 : (f r).toLagRow = r := hfl r
    calc (g (f r)).lag1 = (g (f r)).toWxRow.toLagRow.lag1 := rfl
      _ = r.lag1 := by rw [h1, h2]
  have hsqf : ∀ r : LagRow, (g (f r)).salesQuantity = r.salesQuantity := by
    intro r
    calc (g (f r)).salesQuantity = (g (f r)).toAggRow.salesQuantity := rfl
      _ = r.toAggRow.salesQuantity := by rw [hkey r]
      _ = r.salesQuantity := rfl
  have hfilter : (generateForecastFeatures s).2.filter
      (fun r => decide (rowKey r.toAggRow = k))
      = (L.filter (fun r => decide (rowKey r.toAggRow = k))).map
          (fun r => g (f r)) := by
    have hm : (generateForecastFeatures s).2 = (L.map f).map g := by
      show mergeHoliday s.holiday (mergeWeather s.weather L) = (L.map f).map g
      rw [hgh, hfw]
    rw [hm, List.map_map, List.filter_map]
    have hpf : L.filter ((fun x : FeatRow => decide (rowKey x.toAggRow = k)) ∘ (g ∘ f))
        = L.filter (fun r : LagRow => decide (rowKey r.toAggRow = k)) :=
      List.filter_congr (fun r _ => by
        simp only [Function.comp_apply, hkey r])
    rw [hpf]
    rfl
  refine ⟨hL1, ?_, ?_⟩
  · intro r0 h0
    rw [hfilter, List.get?_map] at h0
    match hx : (L.filter (fun r => decide (rowKey r.toAggRow = k))).get? 0 with
    | none => rw [hx] at h0; simp at h0
    | some l0 =>
      rw [hx] at h0
      simp only [Option.map_some'] at h0
      rw [← Option.some.inj h0, hlagf l0]
      exact hL2 l0 hx
  · intro r0 r1 h0 h1
    rw [hfilter, List.get?_map] at h0 h1
    match hx0 : (L.filter (fun r => decide (rowKey r.toAggRow = k))).get? 0 with
    | none => rw [hx0] at h0; simp at h0
    | some l0 =>
      match hx1 : (L.filter (fun r => decide (rowKey r.toAggRow = k))).get? 1 with
      | none => rw [hx1] at h1; simp at h1
      | some l1 =>
        rw [hx0] at h0
        rw [hx1] at h1
        simp only [Option.map_some'] at h0 h1
        rw [← Option.some.inj h0, ← Option.some.inj h1, hlagf l1, hsqf l0]
        exact hL3 l0 l1 hx0 hx1

/-- C4 counterexample, traced from the repository's own data shape: the
weather table has two rows on day 0 (two prefectures), so the left merge on
`date` alone duplicates the group's first feature row; in the matrix
produced by `generate_forecast_features`, the second row of group (1, 1) is
that duplicate and its `lag_1` is null — not the first row's
`sales_quantity` (5) as the claim states. -/
theorem C4_counterexample :
    ((generateForecastFeatures
        ⟨[⟨100, 1, 5, 0⟩, ⟨101, 1, 7, 0⟩], [⟨100, none, 1, 0⟩, ⟨101, none, 1, 9⟩],
          none, none, none, some [⟨0, 20, 0⟩, ⟨0, 25, 0⟩], none, none⟩).2.filter
        (fun r => decide (rowKey r.toAggRow = (1, 1)))).get? 0
      = some ⟨⟨⟨⟨1, 1, 0, 5, 0⟩, none, none, none, none⟩, some 20, some 0⟩, none⟩ ∧
    ((generateForecastFeatures
        ⟨[⟨100, 1, 5, 0⟩, ⟨101, 1, 7, 0⟩], [⟨100, none, 1, 0⟩, ⟨101, none, 1, 9⟩],
          none, none, none, some [⟨0, 20, 0⟩, ⟨0, 25, 0⟩], none, none⟩).2.filter
        (fun r => decide (rowKey r.toAggRow = (1, 1)))).get? 1
      = some ⟨⟨⟨⟨1, 1, 0, 5, 0⟩, none, none, none, none⟩, some 25, some 0⟩, none⟩ ∧
    (⟨⟨⟨⟨1, 1, 0, 5, 0⟩, none, none, none, none⟩, some 25, some 0⟩, none⟩
        : FeatRow).lag1 = none ∧
    (⟨⟨⟨⟨1, 1, 0, 5, 0⟩, none, none, none, none⟩, some 25, some 0⟩, none⟩
        : FeatRow).lag1
      ≠ some ((⟨⟨⟨⟨1, 1, 0, 5, 0⟩, none, none, none, none⟩, some 20, some 0⟩, none⟩
        : FeatRow).salesQuantity) := by
  refine ⟨?_, ?_, rfl, by decide⟩ <;>
    simp +decide [generateForecastFeatures, mergeWeather, mergeHoliday,
      addLagFeatures, addLagsAux, mkLagRow, rowKey, aggregateSales, aggKey,
      dedupFirst, sortAgg, insertAgg, aggKeyLe, joinItemsTrans, Function.update]

/-- Closed witness for C4's amended theorem: no weather/holiday tables (the
uniqueness hypotheses hold vacuously), transactions nine days apart
(non-contiguous dates); in the produced matrix the group's second row takes
`lag_1` from the first row by position. -/
theorem C4_witness :
    (⟨⟨⟨⟨1, 1, 9, 7, 0⟩, some 5, none, none, none⟩, none, none⟩, none⟩
        : FeatRow).lag1
      = some ((⟨⟨⟨⟨1, 1, 0, 5, 0⟩, none, none, none, none⟩, none, none⟩, none⟩
        : FeatRow).salesQuantity) :=
  (C4_lag_by_row_position
    ⟨[⟨100, 1, 5, 0⟩, ⟨101, 1, 7, 0⟩], [⟨100, none, 1, 0⟩, ⟨101, none, 1, 9⟩],
      none, none, none, none, none, none⟩ (1, 1)
    (fun ws h => Option.noConfusion h)
    (fun h hh => Option.noConfusion hh)).2.2 _ _
    (by simp +decide [generateForecastFeatures, mergeWeather, mergeHoliday,
      addLagFeatures, addLagsAux, mkLagRow, rowKey, aggregateSales, aggKey,
      dedupFirst, sortAgg, insertAgg, aggKeyLe, joinItemsTrans, Function.update])
    (by simp +decide [generateForecastFeatures, mergeWeather, mergeHoliday,
      addLagFeatures, addLagsAux, mkLagRow, rowKey, aggregateSales, aggKey,
      dedupFirst, sortAgg, insertAgg, aggKeyLe, joinItemsTrans, Function.update])

/-- C5 counterexample: `generate_forecast_features` on an input whose
`holiday` table has one date row and no `is_holiday` column returns with
the caller's `holiday` table mutated — it now carries an `is_holiday`
column of ones — so not every input table keeps the same columns, rows and
values. -/
theorem C5_counterexample :
    ((generateForecastFeatures
        ⟨[], [], none, none, none, none, some ⟨[100], none⟩, none⟩).1).holiday
      = some ⟨[100], some [1]⟩ ∧
    some (⟨[100], none⟩ : HolidayTable) ≠ some (⟨[100], some [1]⟩ : HolidayTable) :=
  ⟨rfl, by decide⟩

/-- C5 (amended): `generate_forecast_features` leaves the
`transaction_items`, `transaction`, `product`, `store`, `promotion`,
`weather` (identity re-coercion of its already-parsed dates) and
`inventory` input tables unchanged, but mutates the caller's `holiday`
table in place: its `date` column is re-coerced and an `is_holiday` column
of ones is assigned to it.  The feature matrix itself is built in newly
allocated tables. -/
theorem C5_input_table_frame (s : EngineState) :
    (generateForecastFeatures s).1.transactionItems = s.transactionItems ∧
    (generateForecastFeatures s).1.transaction = s.transaction ∧
    (generateForecastFeatures s).1.product = s.product ∧
    (generateForecastFeatures s).1.store = s.store ∧
    (generateForecastFeatures s).1.promotion = s.promotion ∧
    (generateForecastFeatures s).1.weather = s.weather ∧
    (generateForecastFeatures s).1.inventory = s.inventory ∧
    (generateForecastFeatures s).1.holiday = (match s.holiday with
      | none => none
      | some h => some ⟨h.dates, some (List.replicate h.dates.length 1)⟩) := by
  cases hs : s.holiday <;> simp [generateForecastFeatures, hs]

/-- C8: the interaction table has exactly one row per distinct
(customer_id, product_id) pair occurring in the joined transaction data,
and each row carries the summed quantity and the count of transaction-item
rows of that pair. -/
theorem C8_interaction_table_grouping (items : List TransItemRow)
    (trans : List TransactionRow) :
    ((generateUserItemMatrix items trans).1.map
        (fun r => (r.customerId, r.productId))).Nodup ∧
    (∀ c p : Nat,
      (c, p) ∈ (generateUserItemMatrix items trans).1.map
          (fun r => (r.customerId, r.productId))
        ↔ (c, p) ∈ joinedPairs items trans) ∧
    (∀ r ∈ (generateUserItemMatrix items trans).1,
      r.quantity = ((pairGroup items trans r.customerId r.productId).map
          (fun x => x.quantity)).sum ∧
      r.purchaseCount = ((pairGroup items trans r.customerId r.productId).length : ℚ)) := by
  have hkeys : (generateUserItemMatrix items trans).1.map
      (fun r => (r.customerId, r.productId))
      = sortPairs (dedupFirst (joinedPairs items trans)) := by
    simp only [generateUserItemMatrix, List.map_map]
    exact List.map_id'' (fun q => rfl) _
  refine ⟨?_, ?_, ?_⟩
  · rw [hkeys]
    exact ((sortPairs_perm _).nodup_iff).mpr (nodup_dedupFirst _)
  · intro c p
    rw [hkeys]
    exact ((sortPairs_perm _).mem_iff).trans mem_dedupFirst
  · intro r hr
    simp only [generateUserItemMatrix, List.mem_map] at hr
    rcases hr with ⟨q, hq, hbuild⟩
    subst hbuild
    exact ⟨rfl, rfl⟩

/-- Closed witness for C8: two transactions of customer 1 hitting products
7 and 8; exactly one row per distinct pair of the joined data. -/
theorem C8_witness :
    ((generateUserItemMatrix [⟨100, 7, 2, 0⟩, ⟨100, 8, 1, 0⟩, ⟨101, 7, 3, 0⟩]
        [⟨100, some 1, 1, 0⟩, ⟨101, some 1, 1, 1⟩]).1.map
        (fun r => (r.customerId, r.productId))).Nodup ∧
    (((1 : Nat), (7 : Nat)) ∈ (generateUserItemMatrix
        [⟨100, 7, 2, 0⟩, ⟨100, 8, 1, 0⟩, ⟨101, 7, 3, 0⟩]
        [⟨100, some 1, 1, 0⟩, ⟨101, some 1, 1, 1⟩]).1.map
        (fun r => (r.customerId, r.productId))
      ↔ ((1 : Nat), (7 : Nat)) ∈ joinedPairs
        [⟨100, 7, 2, 0⟩, ⟨100, 8, 1, 0⟩, ⟨101, 7, 3, 0⟩]
        [⟨100, some 1, 1, 0⟩, ⟨101, some 1, 1, 1⟩]) :=
  ⟨(C8_interaction_table_grouping _ _).1, (C8_interaction_table_grouping _ _).2.1 1 7⟩

/-! ## Forecasting pipeline (`backend/app/models/forecasting.py`)

Product/store identifiers are `String` here because `BaselineForecaster.predict`
branches on Python truthiness of the ids (`if product_id and store_id`). -/

/-- Fitted state of `BaselineForecaster`: either per-(product, store)
trailing means or (when the grouping keys were absent at fit time) one
global mean. -/
structure Baseline where
  pairHistory : List ((String × String) × ℚ)
  globalHistory : Option ℚ
deriving DecidableEq

def baselineLookup (b : Baseline) (k : String × String) : Option ℚ :=
  (b.pairHistory.find? (fun e => e.1 == k)).map (fun e => e.2)

/-- Embeds `BaselineForecaster.predict`: replay the cached mean of the pair key
(falling back to the global mean, then to 0) for `horizon` steps. -/
def baselinePredict (b : Baseline) (productId storeId : String) (horizon : Nat) :
    List ℚ :=
  let pred := if productId ≠ "" ∧ storeId ≠ "" then
      match baselineLookup b (productId, storeId) with
      | some v => v
      | none => b.globalHistory.getD 0
    else b.globalHistory.getD 0
  List.replicate horizon pred

/-- One row of the feature matrix held by the pipeline; the numeric feature
columns the boosted model consumes are opaque to the verified claims, so a
row is identified by its keys and date and fed to the model function as a
whole. -/
structure FeatureRowF where
  productId : String
  storeId : String
  date : Int
deriving DecidableEq

/-- Embeds `ForecastingPipeline` state: the feature matrix, the fitted baseline,
and the fitted LightGBM model (`none` models `model is None`, i.e. an
untrained booster whose `predict` raises); a trained booster is abstracted
as its prediction function on a feature row. -/
structure PipelineState where
  features : List FeatureRowF
  baseline : Baseline
  lgbm : Option (FeatureRowF → ℚ)

structure ForecastResult where
  productId : String
  storeId : String
  method : String
  horizon : Nat
  predictions : List ℚ
  dates : List Int
  totalForecast : ℚ
  avgDailyForecast : ℚ
deriving DecidableEq

/-- One entry of a batch forecast: a result, or the captured
`{product_id, store_id, error}` record of a failed pair. -/
inductive BatchEntry where
  | result (r : ForecastResult)
  | failure (productId storeId errorMessage : String)
deriving DecidableEq

/-- Embeds `ForecastingPipeline.forecast`.  The non-baseline path takes the last
feature row of the (product, store) pair (`tail(1)`), falls back to the
baseline when none exists, and otherwise repeats the boosted model's
clipped prediction on that same row `horizon` times (`max(0, pred)`); an
untrained booster raises — except when `horizon = 0`, where the prediction
loop never runs.  Forecast dates are the `horizon` consecutive days after
the maximal date of the whole feature matrix; on an empty feature matrix
`pd.date_range(start=NaT + 1 day)` raises.  (`avg_daily_forecast` is
`sum/horizon`; numpy yields NaN for `horizon = 0`, while `ℚ` division by
zero yields 0 — no claim touches that value.) -/
def forecast (p : PipelineState) (productId storeId : String) (horizon : Nat)
    (useBaseline : Bool := false) : Except String ForecastResult :=
  let predMethod : Except String (List ℚ × String) :=
    if useBaseline then
      .ok (baselinePredict p.baseline productId storeId horizon, "baseline")
    else
      match (p.features.filter (fun r =>
          decide (r.productId = productId ∧ r.storeId = storeId))).getLast? with
      | none =>
        .ok (baselinePredict p.baseline productId storeId horizon, "baseline_fallback")
      | some row =>
        match p.lgbm with
        | some f => .ok (List.replicate horizon (max 0 (f row)), "lightgbm")
        | none =>
          if horizon = 0 then .ok ([], "lightgbm")
          else .error "モデルが学習されていません"
  match predMethod with
  | .error e => .error e
  | .ok pm =>
    match (p.features.map (fun r => r.date)).max? with
    | none => .error "Neither start nor end can be NaT"
    | some d =>
      .ok ⟨productId, storeId, pm.2, horizon, pm.1,
        (List.range horizon).map (fun i => d + 1 + (i : Int)),
        pm.1.sum, pm.1.sum / (horizon : ℚ)⟩

/-- Embeds `ForecastingPipeline.batch_forecast`: apply `forecast` per pair; a
failing pair is captured as a `{product_id, store_id, error}` entry in its
position. -/
def batchForecast (p : PipelineState) (pairs : List (String × String))
    (horizon : Nat) : List BatchEntry :=
  pairs.map (fun q =>
    match forecast p q.1 q.2 horizon with
    | .ok r => .result r
    | .error e => .failure q.1 q.2 e)

/-- Embeds `LightGBMForecaster.fit`'s chronological split index:
`int(len(X) * (1 - test_size))` (truncation = floor on the non-negative
values arising from a fraction in [0, 1]). -/
def splitIdx (n : Nat) (testSize : ℚ) : Nat :=
  (⌊(n : ℚ) * (1 - testSize)⌋).toNat

/-- The order-preserving train/validation split of `LightGBMForecaster.fit`
(`X.iloc[:split_idx]` / `X.iloc[split_idx:]`), applied to the prepared
feature rows (`prepare_features` maps the input rows one-to-one in order,
so the row indices agree).  The subsequent `lgb.train` call is an external
library collaborator and is not embedded. -/
def chronoSplit {α : Type} (rows : List α) (testSize : ℚ) : List α × List α :=
  (rows.take (splitIdx rows.length testSize), rows.drop (splitIdx rows.length testSize))

/-! ## Claims C3, C7 -/

/-- C3: `batch_forecast` returns exactly one entry per input pair, in input
order; a pair whose `forecast` raises is captured as a
`{product_id, store_id, error}` entry in its position; and each entry
depends only on its own pair, so a failing pair neither aborts the batch
nor alters the other pairs' results. -/
theorem C3_batch_forecast_per_pair (p : PipelineState)
    (pairs : List (String × String)) (horizon : Nat) :
    (batchForecast p pairs horizon).length = pairs.length ∧
    (∀ (i : Nat) (q : String × String), pairs.get? i = some q →
      (batchForecast p pairs horizon).get? i
        = some (match forecast p q.1 q.2 horizon with
            | .ok r => .result r
            | .error e => .failure q.1 q.2 e)) ∧
    (∀ (pairs2 : List (String × String)) (i : Nat),
      pairs.get? i = pairs2.get? i →
      (batchForecast p pairs horizon).get? i
        = (batchForecast p pairs2 horizon).get? i) := by
  refine ⟨by simp [batchForecast], ?_, ?_⟩
  · intro i q hq
    rw [batchForecast, List.get?_map, hq]
    rfl
  · intro pairs2 i h
    rw [batchForecast, batchForecast, List.get?_map, List.get?_map, h]

/-- Closed witness for C3: a pipeline with an untrained booster; the pair
("A", "S") matches a feature row and its forecast raises, yielding an error
entry, while the batch still has one entry per pair. -/
theorem C3_witness :
    (batchForecast ⟨[⟨"A", "S", 0⟩], ⟨[], none⟩, none⟩
        [("A", "S"), ("B", "S")] 2).length = 2 ∧
    (batchForecast ⟨[⟨"A", "S", 0⟩], ⟨[], none⟩, none⟩
        [("A", "S"), ("B", "S")] 2).get? 0
      = some (.failure "A" "S" "モデルが学習されていません") := by
  refine ⟨(C3_batch_forecast_per_pair _ _ _).1, ?_⟩
  have h := (C3_batch_forecast_per_pair
    ⟨[⟨"A", "S", 0⟩], ⟨[], none⟩, none⟩ [("A", "S"), ("B", "S")] 2).2.1
    0 ("A", "S") rfl
  rw [h]
  rfl

/-- C7: `LightGBMForecaster.fit` splits the prepared rows chronologically,
not randomly: the split index is exactly `⌊n·(1 − test_size)⌋`, the
training slice is exactly the first `split_idx` rows in their original
order, the validation slice is exactly the remaining rows (the row at
original position `split_idx + j`), and together they recompose the input —
so no validation row precedes a training row in the data ordering. -/
theorem C7_chronological_split {α : Type} (rows : List α) (testSize : ℚ)
    (h0 : 0 ≤ testSize) (h1 : testSize ≤ 1) :
    splitIdx rows.length testSize ≤ rows.length ∧
    ((splitIdx rows.length testSize : Int))
      = ⌊(rows.length : ℚ) * (1 - testSize)⌋ ∧
    (chronoSplit rows testSize).1.length = splitIdx rows.length testSize ∧
    (∀ i : Nat, i < splitIdx rows.length testSize →
      (chronoSplit rows testSize).1[i]? = rows[i]?) ∧
    (∀ j : Nat, (chronoSplit rows testSize).2[j]?
      = rows[splitIdx rows.length testSize + j]?) ∧
    (chronoSplit rows testSize).1 ++ (chronoSplit rows testSize).2 = rows := by
  have hnn : (0 : ℚ) ≤ (rows.length : ℚ) * (1 - testSize) :=
    mul_nonneg (Nat.cast_nonneg _) (by linarith)
  have hfl : (0 : Int) ≤ ⌊(rows.length : ℚ) * (1 - testSize)⌋ :=
    Int.floor_nonneg.mpr hnn
  have hcast : ((splitIdx rows.length testSize : Nat) : Int)
      = ⌊(rows.length : ℚ) * (1 - testSize)⌋ := Int.toNat_of_nonneg hfl
  have hub : (rows.length : ℚ) * (1 - testSize) ≤ (rows.length : ℚ) :=
    mul_le_of_le_one_right (Nat.cast_nonneg _) (by linarith)
  have hkn : splitIdx rows.length testSize ≤ rows.length := by
    have h2 : ⌊(rows.length : ℚ) * (1 - testSize)⌋ ≤ (rows.length : Int) := by
      have := Int.floor_le_floor hub
      simpa using this
    omega
  refine ⟨hkn, hcast, ?_, ?_, ?_, List.take_append_drop _ _⟩
  · simp [chronoSplit, List.length_take, min_eq_left hkn]
  · intro i hi
    simp [chronoSplit, List.getElem?_take_of_lt hi]
  · intro j
    simp [chronoSplit, List.getElem?_drop]

/-- Closed witness for C7 at five rows and the default fraction 0.2. -/
theorem C7_witness :
    splitIdx ([10, 20, 30, 40, 50] : List Nat).length (1/5)
        ≤ ([10, 20, 30, 40, 50] : List Nat).length ∧
    (chronoSplit ([10, 20, 30, 40, 50] : List Nat) (1/5)).2[(0 : Nat)]?
      = ([10, 20, 30, 40, 50] : List Nat)[splitIdx
          ([10, 20, 30, 40, 50] : List Nat).length (1/5) + 0]? ∧
    (chronoSplit ([10, 20, 30, 40, 50] : List Nat) (1/5)).1
        ++ (chronoSplit ([10, 20, 30, 40, 50] : List Nat) (1/5)).2
      = [10, 20, 30, 40, 50] :=
  ⟨(C7_chronological_split [10, 20, 30, 40, 50] (1/5) (by norm_num) (by norm_num)).1,
   (C7_chronological_split [10, 20, 30, 40, 50] (1/5) (by norm_num) (by norm_num)).2.2.2.2.1 0,
   (C7_chronological_split [10, 20, 30, 40, 50] (1/5) (by norm_num) (by norm_num)).2.2.2.2.2⟩

/-! ## Training orchestrator (`backend/app/core/training_events.py`)

The per-(version, model) training record is the slice of
`app.state.data_versions[version_id]["training"]` belonging to the model
being run (keys `model`, `model_progress`, `model_error`,
`model_error_trace`, `model_metrics`, `model_matrix_info`; an absent dict
key is `none`).  The artifact slot is `app.state.forecast_pipeline` /
`app.state.recommender` (opaque here).  `events` collects the payloads
handed to `broadcast_training_update` in order (a failed delivery to one
websocket subscriber only removes that subscriber and never raises, so the
runner's control flow does not depend on subscribers).  The version-id
lookup guard (`version_not_found`) is outside the claim: the record under
verification belongs to an existing version. -/

structure TrainingRecord where
  status : Option String
  progress : Option Nat
  error : Option String
  errorTrace : Option String
  metrics : Option String
  matrixInfo : Option String
deriving DecidableEq

/-- A `broadcast_training_update` payload (the constant `type` and
`version`/`model` routing fields are fixed by context and projected). -/
structure TrainingEvent where
  status : Option String
  progress : Nat
  stage : String
  metrics : Option String
  error : Option String
deriving DecidableEq

structure OrchestratorState where
  record : TrainingRecord
  artifact : Option String
  events : List TrainingEvent
deriving DecidableEq

def PROGRESS_STAGES_FORECAST : List (Nat × String) :=
  [(5, "init"), (25, "feature_engine"), (40, "feature_done"), (50, "model_init"),
   (85, "model_train"), (95, "metrics"), (100, "complete")]

def PROGRESS_STAGES_RECOMMEND : List (Nat × String) :=
  [(5, "init"), (20, "interaction_matrix"), (40, "product_features"),
   (55, "model_init"), (85, "model_train"), (95, "metrics"), (100, "complete")]

/-- Embeds `_init_training_record`: status `running`, progress 0; the error,
metrics and matrix-info keys are popped (`model_error_trace` is **not**
popped). -/
def initTrainingRecord (s : OrchestratorState) : OrchestratorState :=
  { s with record := ⟨some "running", some 0, none, s.record.errorTrace, none, none⟩ }

/-- Embeds `_update_progress`: write the progress value and broadcast one event
carrying the record's current status/metrics/error. -/
def updateProgress (progress : Nat) (stage : String) (s : OrchestratorState) :
    OrchestratorState :=
  let r : TrainingRecord := { s.record with progress := some progress }
  { s with
    record := r
    events := s.events ++ [⟨r.status, progress, stage, r.metrics, r.error⟩] }

/-- Python truthiness of an optional string/dict payload (`if error:` /
`if metrics:`): present and non-empty. -/
def truthy (o : Option String) : Bool :=
  match o with
  | none => false
  | some x => !(x == "")

/-- Embeds `_finalize`: set the final status; store metrics / matrix info / error /
trace only when truthy; on `failed` keep the already-reached progress value
(`tr.get(progress, 0)`), otherwise force 100; broadcast one final event with
stage `complete` on success and `error` otherwise. -/
def finalize (status : String) (metrics matrixInfo error errorTrace : Option String)
    (s : OrchestratorState) : OrchestratorState :=
  let r0 := s.record
  let r1 : TrainingRecord :=
    ⟨some status, r0.progress,
     if truthy error then error else r0.error,
     if truthy errorTrace then errorTrace else r0.errorTrace,
     if truthy metrics then metrics else r0.metrics,
     if truthy matrixInfo then matrixInfo else r0.matrixInfo⟩
  let prog := if status = "failed" then r1.progress.getD 0 else 100
  let r2 : TrainingRecord := { r1 with progress := some prog }
  { s with
    record := r2
    events := s.events ++
      [⟨some status, prog, if status = "completed" then "complete" else "error",
        r2.metrics, r2.error⟩] }

/-- Outcome of the work performed inside one stage of the `for` loop (the
code after that stage's `_update_progress` call); a raise carries the
exception message (`str(e)`) and the bounded trace
(`traceback.format_exc(limit=20)`). -/
inductive StageOutcome where
  | ok
  | raises (message trace : String)
deriving DecidableEq

/-- The staged `for progress, stage in STAGES[:-1]` loop: every iteration
first updates/broadcasts progress, then performs the stage's work; the
first raising stage aborts the loop with its exception. -/
def runStages (work : String → StageOutcome) :
    List (Nat × String) → OrchestratorState → OrchestratorState × Option (String × String)
  | [], s => (s, none)
  | (pct, stage) :: rest, s =>
    let s1 := updateProgress pct stage s
    match work stage with
    | .ok => runStages work rest s1
    | .raises msg tb => (s1, some (msg, tb))

/-- Common body of `run_forecast_training` / `run_recommend_training`:
init the record, run the stage loop over `stages[:-1]`; on success install
the new artifact and finalize `completed` (with metrics resp. matrix info);
on an exception finalize `failed` with the message and trace, leaving the
artifact slot untouched. -/
def runTraining (stages : List (Nat × String)) (work : String → StageOutcome)
    (newArtifact : String) (metrics matrixInfo : Option String)
    (s : OrchestratorState) : OrchestratorState :=
  match runStages work stages.dropLast (initTrainingRecord s) with
  | (s2, none) =>
    finalize "completed" metrics matrixInfo none none { s2 with artifact := some newArtifact }
  | (s2, some mt) => finalize "failed" none none (some mt.1) (some mt.2) s2

/-- Embeds `run_forecast_training` (stage work: feature generation, pipeline
construction, `pipeline.train()`; `metrics` is the result reported on
success). -/
def runForecastTraining (work : String → StageOutcome) (pipeline : String)
    (metrics : Option String) (s : OrchestratorState) : OrchestratorState :=
  runTraining PROGRESS_STAGES_FORECAST work pipeline metrics none s

/-- Embeds `run_recommend_training`. -/
def runRecommendTraining (work : String → StageOutcome) (recommender : String)
    (matrixInfo : Option String) (s : OrchestratorState) : OrchestratorState :=
  runTraining PROGRESS_STAGES_RECOMMEND work recommender none matrixInfo s

/-- The sequence of progress updates performed before a failure. -/
def applyUpdates (qs : List (Nat × String)) (s : OrchestratorState) :
    OrchestratorState :=
  qs.foldl (fun t q => updateProgress q.1 q.2 t) s

theorem runStages_fail (work : String → StageOutcome) (msg tb : String) :
    ∀ (pre : List (Nat × String)) (pct : Nat) (stage : String)
      (rest : List (Nat × String)) (s : OrchestratorState),
      (∀ q ∈ pre, work q.2 = .ok) → work stage = .raises msg tb →
      runStages work (pre ++ (pct, stage) :: rest) s
        = (applyUpdates (pre ++ [(pct, stage)]) s, some (msg, tb)) := by
  intro pre
  induction pre with
  | nil =>
    intro pct stage rest s _ hw
    simp only [List.nil_append, runStages, hw, applyUpdates, List.foldl_cons,
      List.foldl_nil]
  | cons q qs ih =>
    intro pct stage rest s hpre hw
    have hq : work q.2 = .ok := hpre q (List.mem_cons_self q qs)
    calc runStages work ((q :: qs) ++ (pct, stage) :: rest) s
        = runStages work (qs ++ (pct, stage) :: rest) (updateProgress q.1 q.2 s) := by
          rw [List.cons_append, runStages, hq]
      _ = (applyUpdates (qs ++ [(pct, stage)]) (updateProgress q.1 q.2 s), some (msg, tb)) :=
          ih pct stage rest _ (fun x hx => hpre x (List.mem_cons_of_mem q hx)) hw
      _ = (applyUpdates ((q :: qs) ++ [(pct, stage)]) s, some (msg, tb)) := by
          rw [applyUpdates, applyUpdates, List.cons_append, List.foldl_cons]

theorem applyUpdates_fields :
    ∀ (qs : List (Nat × String)) (s : OrchestratorState),
      (applyUpdates qs s).record.status = s.record.status ∧
      (applyUpdates qs s).record.metrics = s.record.metrics ∧
      (applyUpdates qs s).record.error = s.record.error ∧
      (applyUpdates qs s).record.errorTrace = s.record.errorTrace ∧
      (applyUpdates qs s).record.matrixInfo = s.record.matrixInfo ∧
      (applyUpdates qs s).artifact = s.artifact ∧
      (applyUpdates qs s).events = s.events ++ qs.map (fun q =>
        ⟨s.record.status, q.1, q.2, s.record.metrics, s.record.error⟩) := by
  intro qs
  induction qs with
  | nil => intro s; simp [applyUpdates]
  | cons q qs ih =>
    intro s
    have h := ih (updateProgress q.1 q.2 s)
    simp only [applyUpdates, List.foldl_cons] at h ⊢
    refine ⟨h.1, h.2.1, h.2.2.1, h.2.2.2.1, h.2.2.2.2.1, h.2.2.2.2.2.1, ?_⟩
    rw [h.2.2.2.2.2.2]
    simp [updateProgress]

theorem applyUpdates_progress :
    ∀ (qs : List (Nat × String)) (pct : Nat) (stage : String) (s : OrchestratorState),
      (applyUpdates (qs ++ [(pct, stage)]) s).record.progress = some pct := by
  intro qs
  induction qs with
  | nil => intro pct stage s; simp [applyUpdates, updateProgress]
  | cons q qs ih =>
    intro pct stage s
    simp only [applyUpdates, List.cons_append, List.foldl_cons]
    exact ih pct stage (updateProgress q.1 q.2 s)

/-! ## Claim C1 -/

/-- C1 (amended): for every training run (`run_forecast_training` /
`run_recommend_training`, i.e. `runTraining` on either stage list) in which
a stage raises an uncaught exception, the training record ends with status
`failed`; its progress keeps the last value reached before the failure (the
failing stage's percentage — not reset to 0); the error message and the
bounded stack trace are stored **when they are non-empty strings** (an
exception whose `str()` is empty leaves the error field unset, see the
counterexample); exactly one final progress event with stage `error` is
emitted after the per-stage events; and the previously current artifact
slot is left unchanged — it is swapped only on successful completion. -/
theorem C1_failed_training_run (stages : List (Nat × String))
    (hstages : stages = PROGRESS_STAGES_FORECAST ∨ stages = PROGRESS_STAGES_RECOMMEND)
    (work : String → StageOutcome) (pre : List (Nat × String)) (pct : Nat)
    (stage : String) (rest : List (Nat × String))
    (hdec : stages.dropLast = pre ++ (pct, stage) :: rest)
    (hpre : ∀ q ∈ pre, work q.2 = .ok)
    (msg tb : String) (hw : work stage = .raises msg tb)
    (art : String) (metrics matrixInfo : Option String) (s : OrchestratorState) :
    (runTraining stages work art metrics matrixInfo s).record.status = some "failed" ∧
    (runTraining stages work art metrics matrixInfo s).record.progress = some pct ∧
    (msg ≠ "" → (runTraining stages work art metrics matrixInfo s).record.error = some msg) ∧
    (tb ≠ "" → (runTraining stages work art metrics matrixInfo s).record.errorTrace = some tb) ∧
    (runTraining stages work art metrics matrixInfo s).artifact = s.artifact ∧
    (runTraining stages work art metrics matrixInfo s).events
      = s.events
        ++ (pre ++ [(pct, stage)]).map (fun q =>
            ⟨some "running", q.1, q.2, none, none⟩)
        ++ [⟨some "failed", pct, "error", none,
            if msg = "" then none else some msg⟩] ∧
    (((runTraining stages work art metrics matrixInfo s).events.drop
        s.events.length).filter (fun e => e.stage == "error"))
      = [⟨some "failed", pct, "error", none,
          if msg = "" then none else some msg⟩] := by
  have hrun : runTraining stages work art metrics matrixInfo s
      = finalize "failed" none none (some msg) (some tb)
          (applyUpdates (pre ++ [(pct, stage)]) (initTrainingRecord s)) := by
    rw [runTraining, hdec, runStages_fail work msg tb pre pct stage rest _ hpre hw]
  obtain ⟨hst, hmet, herr, htr, hmat, hart, hev⟩ :=
    applyUpdates_fields (pre ++ [(pct, stage)]) (initTrainingRecord s)
  have hinit1 : (initTrainingRecord s).record.status = some "running" := rfl
  have hinit2 : (initTrainingRecord s).record.metrics = none := rfl
  have hinit3 : (initTrainingRecord s).record.error = none := rfl
  have hinit4 : (initTrainingRecord s).record.errorTrace = s.record.errorTrace := rfl
  have hinit5 : (initTrainingRecord s).artifact = s.artifact := rfl
  have hinit6 : (initTrainingRecord s).events = s.events := rfl
  rw [hinit1] at hst
  rw [hinit2] at hmet
  rw [hinit3] at herr
  rw [hinit4] at htr
  rw [hinit5] at hart
  rw [hinit6, hinit1, hinit2, hinit3] at hev
  have hprog := applyUpdates_progress pre pct stage (initTrainingRecord s)
  have hevents : (runTraining stages work art metrics matrixInfo s).events
      = s.events
        ++ (pre ++ [(pct, stage)]).map (fun q =>
            ⟨some "running", q.1, q.2, none, none⟩)
        ++ [⟨some "failed", pct, "error", none,
            if msg = "" then none else some msg⟩] := by
    by_cases hm : msg = "" <;>
      simp [hrun, finalize, hev, hmet, herr, hprog, truthy, hm, List.append_assoc]
  refine ⟨?_, ?_, ?_, ?_, ?_, hevents, ?_⟩
  · simp [hrun, finalize]
  · simp [hrun, finalize, hprog]
  · intro hm
    simp [hrun, finalize, truthy, hm]
  · intro ht
    simp [hrun, finalize, truthy, ht]
  · simp [hrun, finalize, hart]
  · have hnames : ∀ q ∈ stages.dropLast, q.2 ≠ "error" := by
      rcases hstages with h | h <;> subst h <;> decide
    have hin : ∀ q ∈ pre ++ [(pct, stage)], q.2 ≠ "error" := by
      intro q hq
      refine hnames q ?_
      rw [hdec]
      rcases List.mem_append.mp hq with h | h
      · exact List.mem_append_left _ h
      · rw [List.mem_singleton.mp h]
        exact List.mem_append_right _ (List.mem_cons_self _ _)
    have hUfilter : (((pre ++ [(pct, stage)]).map (fun q =>
        (⟨some "running", q.1, q.2, none, none⟩ : TrainingEvent))).filter
          (fun e => e.stage == "error")) = [] := by
      rw [List.filter_eq_nil]
      intro e he
      rcases List.mem_map.mp he with ⟨q, hq, rfl⟩
      simpa using hin q hq
    rw [hevents, List.append_assoc, List.drop_left, List.filter_append, hUfilter]
    simp

/-- C1 counterexample: a stage raising an exception whose `str()` is the
empty string — the run still ends `failed`, but `_finalize`'s `if error:`
guard skips the assignment, so **no error message is stored**, contrary to
the claim as stated. -/
theorem C1_counterexample :
    (runForecastTraining
        (fun st => if st = "model_train" then .raises "" "tb" else .ok)
        "new" none ⟨⟨none, none, none, none, none, none⟩, some "old", []⟩).record.status
      = some "failed" ∧
    (runForecastTraining
        (fun st => if st = "model_train" then .raises "" "tb" else .ok)
        "new" none ⟨⟨none, none, none, none, none, none⟩, some "old", []⟩).record.error
      = none :=
  ⟨rfl, rfl⟩

/-- Closed witness for C1's amended theorem: a forecast run whose
`model_train` stage raises `"boom"`; the record ends failed at progress 85
with the message stored and the previously served artifact intact. -/
theorem C1_witness :
    (runForecastTraining
        (fun st => if st = "model_train" then .raises "boom" "Traceback" else .ok)
        "new" none ⟨⟨none, none, none, none, none, none⟩, some "old", []⟩).record.status
      = some "failed" ∧
    (runForecastTraining
        (fun st => if st = "model_train" then .raises "boom" "Traceback" else .ok)
        "new" none ⟨⟨none, none, none, none, none, none⟩, some "old", []⟩).record.progress
      = some 85 ∧
    (runForecastTraining
        (fun st => if st = "model_train" then .raises "boom" "Traceback" else .ok)
        "new" none ⟨⟨none, none, none, none, none, none⟩, some "old", []⟩).record.error
      = some "boom" ∧
    (runForecastTraining
        (fun st => if st = "model_train" then .raises "boom" "Traceback" else .ok)
        "new" none ⟨⟨none, none, none, none, none, none⟩, some "old", []⟩).artifact
      = some "old" :=
  ⟨(C1_failed_training_run PROGRESS_STAGES_FORECAST (Or.inl rfl)
      (fun st => if st = "model_train" then .raises "boom" "Traceback" else .ok)
      [(5, "init"), (25, "feature_engine"), (40, "feature_done"), (50, "model_init")]
      85 "model_train" [(95, "metrics")] (by decide) (by decide)
      "boom" "Traceback" rfl "new" none none
      ⟨⟨none, none, none, none, none, none⟩, some "old", []⟩).1,
   (C1_failed_training_run PROGRESS_STAGES_FORECAST (Or.inl rfl)
      (fun st => if st = "model_train" then .raises "boom" "Traceback" else .ok)
      [(5, "init"), (25, "feature_engine"), (40, "feature_done"), (50, "model_init")]
      85 "model_train" [(95, "metrics")] (by decide) (by decide)
      "boom" "Traceback" rfl "new" none none
      ⟨⟨none, none, none, none, none, none⟩, some "old", []⟩).2.1,
   (C1_failed_training_run PROGRESS_STAGES_FORECAST (Or.inl rfl)
      (fun st => if st = "model_train" then .raises "boom" "Traceback" else .ok)
      [(5, "init"), (25, "feature_engine"), (40, "feature_done"), (50, "model_init")]
      85 "model_train" [(95, "metrics")] (by decide) (by decide)
      "boom" "Traceback" rfl "new" none none
      ⟨⟨none, none, none, none, none, none⟩, some "old", []⟩).2.2.1 (by decide),
   (C1_failed_training_run PROGRESS_STAGES_FORECAST (Or.inl rfl)
      (fun st => if st = "model_train" then .raises "boom" "Traceback" else .ok)
      [(5, "init"), (25, "feature_engine"), (40, "feature_done"), (50, "model_init")]
      85 "model_train" [(95, "metrics")] (by decide) (by decide)
      "boom" "Traceback" rfl "new" none none
      ⟨⟨none, none, none, none, none, none⟩, some "old", []⟩).2.2.2.2.1⟩

end RetailSpec
